import Mathlib

/-! Daydream controls.

A shallow embedding of `src/components/daydream-controls.js` (A-Frame 0.8.0): the
component record, its handlers and the host element it talks to are pure
state-passing functions.  Every handler is total on the notifications modelled
here, so a handler that yields a state is a handler that returned normally.
-/

namespace Daydream

/-! ## Values -/

/-- JavaScript numbers met by the component (button values, axis values, offsets)
are only stored and compared for equality, never computed with: rationals. -/
abbrev JSNumber := Rat

def DAYDREAM_CONTROLLER_MODEL_OBJ_URL : String := "vr_controller_daydream.obj"

def DAYDREAM_CONTROLLER_MODEL_OBJ_MTL : String := "vr_controller_daydream.mtl"

def GAMEPAD_ID_PREFIX : String := "Daydream Controller"

/-- The component's `data`, shaped by `schema`. -/
structure Data where
  hand : String
  buttonColor : String
  buttonTouchedColor : String
  buttonHighlightColor : String
  model : Bool
  rotationOffset : Int
  armModel : Bool
deriving DecidableEq, Repr

/-- The defaults of `schema`. -/
def schema : Data :=
  { hand := ""
    buttonColor := "#000000"
    buttonTouchedColor := "#777777"
    buttonHighlightColor := "#FFFFFF"
    model := true
    rotationOffset := 0
    armModel := true }

/-- The shape of `mapping`: axis groups with their raw axis indices, and the button
names by raw button index. -/
structure Mapping where
  axes : List (String × List Nat)
  buttons : List String
deriving DecidableEq, Repr

/-- Button IDs: 0 - trackpad, 1 - menu, 2 - system. -/
def mapping : Mapping :=
  { axes := [("trackpad", [0, 1])]
    buttons := ["trackpad", "menu", "system"] }

/-- Reading `xs[i]` of a JavaScript array with an integer index: `undefined`
(here `none`) outside `0 .. length - 1`. -/
def arrayGet {α : Type} (xs : List α) (i : Int) : Option α :=
  if i < 0 then none else xs[i.toNat]?

/-- A raw button state as delivered by the gamepad layer. -/
structure ButtonState where
  pressed : Bool
  touched : Bool
  value : JSNumber
deriving DecidableEq, Repr

/-- The `detail` carried by an event emitted on the element. -/
inductive Detail where
  | none
  | state (s : ButtonState)
  | axes (values : List (Option JSNumber))
deriving DecidableEq, Repr

/-- One `el.emit(name, detail)`. -/
structure Emitted where
  name : String
  detail : Detail
deriving DecidableEq, Repr

/-! ## Scene objects -/

/-- The identity of a material object of the scene. -/
abbrev MaterialRef := Nat

/-- A named mesh of the controller model.  `material` refers to the material object
of the mesh; several meshes may refer to the same material object. -/
structure Mesh where
  name : String
  material : MaterialRef
deriving DecidableEq, Repr

/-- The colours of the material objects of the scene, by object identity. -/
abbrev Materials := List (MaterialRef × String)

/-- Reading `material.color`. -/
def materialColor : Materials → MaterialRef → Option String
  | [], _ => none
  | (r, col) :: rest, ref => if r = ref then some col else materialColor rest ref

/-- The effect of `material.color.set(color)` on the material object `ref`: the one
object is written in place, whoever refers to it. -/
def setMaterialColor : Materials → MaterialRef → String → Materials
  | [], ref, color => [(ref, color)]
  | (r, col) :: rest, ref, color =>
    if r = ref then (r, color) :: rest else (r, col) :: setMaterialColor rest ref color

structure Vector3 where
  x : JSNumber
  y : JSNumber
  z : JSNumber
deriving DecidableEq, Repr

/-- The root of a loaded model: its position and its named objects in traversal
order. -/
structure Object3D where
  position : Vector3
  objects : List Mesh
deriving DecidableEq, Repr

/-- The first object of the graph with the given name, `undefined` if there is none. -/
def Object3D.getObjectByName (root : Object3D) (name : String) : Option Mesh :=
  root.objects.find? (fun m => m.name == name)

/-- The object `this.buttonMeshes`, with the three keys `onModelLoaded` writes. -/
structure ButtonMeshes where
  menu : Option Mesh
  system : Option Mesh
  trackpad : Option Mesh
deriving DecidableEq, Repr

/-- Reading `buttonMeshes[buttonName]`. -/
def ButtonMeshes.get (t : ButtonMeshes) (buttonName : String) : Option Mesh :=
  if buttonName = "menu" then t.menu
  else if buttonName = "system" then t.system
  else if buttonName = "trackpad" then t.trackpad
  else none

/-! ## The host element -/

/-- The function objects that can be registered as listeners: the component's own
bound handlers, and any listener of somebody else. -/
inductive Handler where
  | onButtonChanged
  | onButtonDown
  | onButtonUp
  | onButtonTouchStart
  | onButtonTouchEnd
  | onModelLoaded
  | onAxisMoved
  | onControllersUpdate
  | foreign (n : Nat)
deriving DecidableEq, Repr

/-- Whether a listener is one of this component's handlers. -/
def Handler.isOwn : Handler → Bool
  | .foreign _ => false
  | _ => true

/-- A listener table: (event name, handler) pairs in registration order. -/
abbrev Listeners := List (String × Handler)

/-- The event target's `addEventListener`: a pair already registered is not
registered a second time. -/
def addEventListener (ls : Listeners) (name : String) (h : Handler) : Listeners :=
  if (name, h) ∈ ls then ls else ls ++ [(name, h)]

/-- The event target's `removeEventListener`. -/
def removeEventListener (ls : Listeners) (name : String) (h : Handler) : Listeners :=
  ls.filter (fun p => !(p == (name, h)))

/-- The handlers a notification called `name` reaches. -/
def handlersFor (ls : Listeners) (name : String) : List Handler :=
  (ls.filter (fun p => p.1 == name)).map (fun p => p.2)

/-- The values the component passes to `el.setAttribute`. -/
inductive AttrValue where
  | trackedControls (armModel : Bool) (hand : String) (idPrefix : String)
      (rotationOffset : Int)
  | objModel (obj : String) (mtl : String)
deriving DecidableEq, Repr

/-- The entity `this.el` with its scene `el.sceneEl`, as far as the component
touches them; `materials` are the material objects of the model the entity shows. -/
structure Element where
  listeners : Listeners
  sceneListeners : Listeners
  emitted : List Emitted
  attributes : List (String × AttrValue)
  setAttributeCalls : List (String × AttrValue)
  materials : Materials
deriving DecidableEq, Repr

def Element.emit (el : Element) (name : String) (detail : Detail) : Element :=
  { el with emitted := el.emitted ++ [⟨name, detail⟩] }

/-- Writing one attribute into an attribute table: the value under `name` is
replaced, a new name is appended. -/
def setAttr : List (String × AttrValue) → String → AttrValue → List (String × AttrValue)
  | [], name, v => [(name, v)]
  | (k, w) :: rest, name, v =>
    if k = name then (k, v) :: rest else (k, w) :: setAttr rest name v

def getAttr : List (String × AttrValue) → String → Option AttrValue
  | [], _ => none
  | (k, w) :: rest, name => if k = name then some w else getAttr rest name

def Element.setAttribute (el : Element) (name : String) (v : AttrValue) : Element :=
  { el with
    attributes := setAttr el.attributes name v
    setAttributeCalls := el.setAttributeCalls ++ [(name, v)] }

/-! ## The component -/

/-- The component instance.  Fields that `init` does not assign start `undefined`
(`none`). -/
structure Component where
  data : Data
  el : Element
  animationActive : Option String
  controllerPresent : Option Bool
  lastControllerCheck : Option Nat
  controllerEventsActive : Option Bool
  buttonMeshes : Option ButtonMeshes
deriving DecidableEq, Repr

/-- The `evt.detail` of a raw button notification. -/
structure ButtonEvent where
  id : Int
  state : ButtonState
deriving DecidableEq, Repr

/-- The `evt.detail` of a `model-loaded` notification. -/
structure ModelLoadedEvent where
  model : Object3D
deriving DecidableEq, Repr

def init (data : Data) (el : Element) : Component :=
  { data := data
    el := el
    animationActive := some "pointing"
    controllerPresent := some false
    lastControllerCheck := some 0
    controllerEventsActive := none
    buttonMeshes := none }

def addEventListeners (c : Component) : Component :=
  let el := c.el
  let ls := addEventListener el.listeners "buttonchanged" .onButtonChanged
  let ls := addEventListener ls "buttondown" .onButtonDown
  let ls := addEventListener ls "buttonup" .onButtonUp
  let ls := addEventListener ls "touchstart" .onButtonTouchStart
  let ls := addEventListener ls "touchend" .onButtonTouchEnd
  let ls := addEventListener ls "model-loaded" .onModelLoaded
  let ls := addEventListener ls "axismove" .onAxisMoved
  { c with el := { el with listeners := ls }, controllerEventsActive := some true }

def removeEventListeners (c : Component) : Component :=
  let el := c.el
  let ls := removeEventListener el.listeners "buttonchanged" .onButtonChanged
  let ls := removeEventListener ls "buttondown" .onButtonDown
  let ls := removeEventListener ls "buttonup" .onButtonUp
  let ls := removeEventListener ls "touchstart" .onButtonTouchStart
  let ls := removeEventListener ls "touchend" .onButtonTouchEnd
  let ls := removeEventListener ls "model-loaded" .onModelLoaded
  let ls := removeEventListener ls "axismove" .onAxisMoved
  { c with el := { el with listeners := ls }, controllerEventsActive := some false }

def addControllersUpdateListener (c : Component) : Component :=
  { c with el := { c.el with
      sceneListeners :=
        addEventListener c.el.sceneListeners "controllersupdated" .onControllersUpdate } }

def removeControllersUpdateListener (c : Component) : Component :=
  { c with el := { c.el with
      sceneListeners :=
        removeEventListener c.el.sceneListeners "controllersupdated" .onControllersUpdate } }

def pause (c : Component) : Component :=
  removeControllersUpdateListener (removeEventListeners c)

def injectTrackedControls (c : Component) : Component :=
  let el := c.el
  let data := c.data
  let el := el.setAttribute "tracked-controls"
    (.trackedControls data.armModel data.hand GAMEPAD_ID_PREFIX data.rotationOffset)
  if !c.data.model then { c with el := el }
  else
    let el := el.setAttribute "obj-model"
      (.objModel DAYDREAM_CONTROLLER_MODEL_OBJ_URL DAYDREAM_CONTROLLER_MODEL_OBJ_MTL)
    { c with el := el }

/-- Returns the component and the model root after the handler has run (the root is
an object of the scene, not of the component). -/
def onModelLoaded (c : Component) (evt : ModelLoadedEvent) : Component × Object3D :=
  let controllerObject3D := evt.model
  if !c.data.model then (c, controllerObject3D)
  else
    let buttonMeshes : ButtonMeshes :=
      { menu := controllerObject3D.getObjectByName "AppButton_AppButton_Cylinder.004"
        system := controllerObject3D.getObjectByName "HomeButton_HomeButton_Cylinder.005"
        trackpad := controllerObject3D.getObjectByName "TouchPad_TouchPad_Cylinder.003" }
    -- Offset pivot point.
    ({ c with buttonMeshes := some buttonMeshes },
     { controllerObject3D with position := ⟨0, 0, -0.04⟩ })

/-- `if (!button) return;` lets through a defined, non-empty name only. -/
def onButtonChanged (c : Component) (evt : ButtonEvent) : Component :=
  match arrayGet mapping.buttons evt.id with
  | none => c
  | some button =>
    if button = "" then c
    else { c with el := c.el.emit (button ++ "changed") (.state evt.state) }

def updateButtonModel (c : Component) (buttonName : String) (state : String) : Component :=
  match c.buttonMeshes with
  | none => c
  | some buttonMeshes =>
    match buttonMeshes.get buttonName with
    | none => c
    | some mesh =>
      let color :=
        if state = "down" then c.data.buttonHighlightColor
        else if state = "touchstart" then c.data.buttonTouchedColor
        else c.data.buttonColor
      -- buttonMeshes[buttonName].material.color.set(color)
      { c with el := { c.el with
          materials := setMaterialColor c.el.materials mesh.material color } }

def updateModel (c : Component) (buttonName : String) (evtName : String) : Component :=
  if !c.data.model then c else updateButtonModel c buttonName evtName

/-! ## The tracked-controls collaborator

`../utils/tracked-controls` and the gamepad layer that raises the raw notifications
are required by the component but are not part of the source file; they are modelled
from the specification. -/

/-- The `evt.detail` of an `axismove` notification: the raw axes vector and the
previous snapshot it is compared with. -/
structure AxisMoveEvent where
  axis : List JSNumber
  previous : List JSNumber
deriving DecidableEq, Repr

/-- Modelled from the spec: `emitIfAxesChanged` of `utils/tracked-controls`, which is
missing from the source.  For each named axis group its mapped raw components are
compared, by exact equality, with the previous snapshot; if one differs, one
`<axisgroup>changed` event carrying the current values of the group is emitted. -/
def emitIfAxesChanged (c : Component) (axesMapping : List (String × List Nat))
    (evt : AxisMoveEvent) : Component :=
  axesMapping.foldl
    (fun c group =>
      if group.2.any (fun i => evt.axis[i]? != evt.previous[i]?) then
        { c with el := c.el.emit (group.1 ++ "changed")
                         (.axes (group.2.map (fun i => evt.axis[i]?))) }
      else c)
    c

def onAxisMoved (c : Component) (evt : AxisMoveEvent) : Component :=
  emitIfAxesChanged c mapping.axes evt

/-- Modelled from the spec: `onButtonEvent` of `utils/tracked-controls`, which is
missing from the source.  A mapped index emits the semantic event
`<button><evtName>` and refreshes the visual model; an index outside the button
mapping is ignored. -/
def onButtonEvent (id : Int) (evtName : String) (c : Component) : Component :=
  match arrayGet mapping.buttons id with
  | none => c
  | some buttonName =>
    updateModel { c with el := c.el.emit (buttonName ++ evtName) .none } buttonName evtName

def onButtonDown (c : Component) (evt : ButtonEvent) : Component :=
  onButtonEvent evt.id "down" c

def onButtonUp (c : Component) (evt : ButtonEvent) : Component :=
  onButtonEvent evt.id "up" c

def onButtonTouchStart (c : Component) (evt : ButtonEvent) : Component :=
  onButtonEvent evt.id "touchstart" c

def onButtonTouchEnd (c : Component) (evt : ButtonEvent) : Component :=
  onButtonEvent evt.id "touchend" c

/-- A notification delivered to the element by the host. -/
inductive Notification where
  | button (name : String) (evt : ButtonEvent)
  | axismove (evt : AxisMoveEvent)
  | modelLoaded (evt : ModelLoadedEvent)
deriving DecidableEq, Repr

def Notification.name : Notification → String
  | .button name _ => name
  | .axismove _ => "axismove"
  | .modelLoaded _ => "model-loaded"

/-- Running one registered listener on a notification.  A listener of somebody else
does not touch the component; `onControllersUpdate` listens on the scene and is not
run by element notifications. -/
def invoke (c : Component) (h : Handler) (n : Notification) : Component :=
  match h, n with
  | .onButtonChanged, .button _ evt => onButtonChanged c evt
  | .onButtonDown, .button _ evt => onButtonDown c evt
  | .onButtonUp, .button _ evt => onButtonUp c evt
  | .onButtonTouchStart, .button _ evt => onButtonTouchStart c evt
  | .onButtonTouchEnd, .button _ evt => onButtonTouchEnd c evt
  | .onAxisMoved, .axismove evt => onAxisMoved c evt
  | .onModelLoaded, .modelLoaded evt => (onModelLoaded c evt).1
  | _, _ => c

/-- The host delivers a notification to every listener registered under its name, in
registration order. -/
def dispatchEvent (c : Component) (n : Notification) : Component :=
  (handlersFor c.el.listeners n.name).foldl (fun c h => invoke c h n) c

/-- Modelled from the spec: the edge detection of the gamepad layer, which is missing
from the source.  Against the (pressed, touched) pair recorded for the index, a
snapshot raises zero or one transition notification (`buttondown`, `buttonup`,
`touchstart`, `touchend`) and then always the `buttonchanged` notification with the
raw state. -/
def handleButton (recorded : Bool × Bool) (id : Int) (s : ButtonState) :
    List Notification :=
  (if s.pressed != recorded.1 then
      [.button (if s.pressed then "buttondown" else "buttonup") ⟨id, s⟩]
    else if s.touched != recorded.2 then
      [.button (if s.touched then "touchstart" else "touchend") ⟨id, s⟩]
    else [])
  ++ [.button "buttonchanged" ⟨id, s⟩]

/-- Modelled from the spec: the component together with the per-index table of
recorded (pressed, touched) pairs kept by the gamepad layer, which is missing from
the source.  Every index starts idle, `(false, false)`. -/
structure World where
  component : Component
  recorded : Int → Bool × Bool

def World.start (c : Component) : World :=
  { component := c, recorded := fun _ => (false, false) }

/-- One button snapshot for raw index `id`: the notifications it raises are
delivered in order and the pair of the snapshot is recorded for the index. -/
def deliverButton (w : World) (id : Int) (s : ButtonState) : World :=
  { component := (handleButton (w.recorded id) id s).foldl dispatchEvent w.component
    recorded := fun j => if j = id then (s.pressed, s.touched) else w.recorded j }

def deliverAll (w : World) (snapshots : List (Int × ButtonState)) : World :=
  snapshots.foldl (fun w x => deliverButton w x.1 x.2) w

/-- The events a step appended to the log of emitted events. -/
def fired (before after : Component) : List Emitted :=
  after.el.emitted.drop before.el.emitted.length

/-- The names of the specific transition events: `<button>` followed by `down`, `up`,
`touchstart` or `touchend`. -/
def transitionNames : List String :=
  mapping.buttons.flatMap
    (fun b => ["down", "up", "touchstart", "touchend"].map (fun k => b ++ k))

def isTransitionEvent (e : Emitted) : Bool :=
  transitionNames.contains e.name

/-- The colour shown by the mesh cached under `buttonName`, if there is one. -/
def meshColor (c : Component) (buttonName : String) : Option String :=
  (c.buttonMeshes.bind (fun t => t.get buttonName)).bind
    (fun m => materialColor c.el.materials m.material)

/-! ## Predicates on listener tables -/

/-- The seven (event name, handler) pairs of `addEventListeners`. -/
def elementHandlers : Listeners :=
  [ ("buttonchanged", .onButtonChanged)
  , ("buttondown", .onButtonDown)
  , ("buttonup", .onButtonUp)
  , ("touchstart", .onButtonTouchStart)
  , ("touchend", .onButtonTouchEnd)
  , ("model-loaded", .onModelLoaded)
  , ("axismove", .onAxisMoved) ]

/-- The pair of `addControllersUpdateListener`. -/
def sceneHandlers : Listeners :=
  [ ("controllersupdated", .onControllersUpdate) ]

/-- Every handler of this component in the table `ls` is registered under a pair of
`own`: the component registers its handlers through `own` only. -/
def ownPaired (ls : Listeners) (own : Listeners) : Bool :=
  ls.all (fun p => !p.2.isOwn || own.contains p)

/-- The component's handlers a notification called `name` reaches. -/
def ownHandlersFor (ls : Listeners) (name : String) : List Handler :=
  (handlersFor ls name).filter Handler.isOwn

/-- The five raw button notifications reach exactly the component's handler for
them, once: the state of the element after `addEventListeners`. -/
def buttonsAttached (c : Component) : Bool :=
  ownHandlersFor c.el.listeners "buttonchanged" == [.onButtonChanged]
  && ownHandlersFor c.el.listeners "buttondown" == [.onButtonDown]
  && ownHandlersFor c.el.listeners "buttonup" == [.onButtonUp]
  && ownHandlersFor c.el.listeners "touchstart" == [.onButtonTouchStart]
  && ownHandlersFor c.el.listeners "touchend" == [.onButtonTouchEnd]

/-! ## Concrete states -/

/-- An element nothing has been registered on, except one listener of another
component for `buttonchanged`; its model has three material objects. -/
def sampleElement : Element :=
  { listeners := [("buttonchanged", .foreign 0)]
    sceneListeners := []
    emitted := []
    attributes := []
    setAttributeCalls := []
    materials := [(0, "#222222"), (1, "#000000"), (2, "#000000")] }

/-- The component with default data, freshly initialised on `sampleElement`. -/
def sampleComponent : Component := init schema sampleElement

/-- A loaded controller model that has the menu and trackpad meshes but no system
mesh. -/
def sampleModel : Object3D :=
  { position := ⟨0, 0, 0⟩
    objects :=
      [ ⟨"Body_Body_Cylinder", 0⟩
      , ⟨"AppButton_AppButton_Cylinder.004", 1⟩
      , ⟨"TouchPad_TouchPad_Cylinder.003", 2⟩ ] }

/-- The mesh table `onModelLoaded` builds from `sampleModel`. -/
def sampleMeshes : ButtonMeshes :=
  { menu := some ⟨"AppButton_AppButton_Cylinder.004", 1⟩
    system := none
    trackpad := some ⟨"TouchPad_TouchPad_Cylinder.003", 2⟩ }

/-- A loaded controller model whose menu and trackpad meshes refer to one and the
same material object. -/
def sharedModel : Object3D :=
  { position := ⟨0, 0, 0⟩
    objects :=
      [ ⟨"Body_Body_Cylinder", 0⟩
      , ⟨"AppButton_AppButton_Cylinder.004", 1⟩
      , ⟨"TouchPad_TouchPad_Cylinder.003", 1⟩ ] }

/-- The component after `sharedModel` has loaded. -/
def sharedComponent : Component := (onModelLoaded sampleComponent ⟨sharedModel⟩).1

/-- The component with its element and scene listeners registered. -/
def attachedComponent : Component :=
  addControllersUpdateListener (addEventListeners sampleComponent)

/-- The attached component after the model has loaded and the menu button has been
pressed: its menu mesh shows the highlight colour. -/
def highlightedComponent : Component :=
  updateButtonModel (onModelLoaded attachedComponent ⟨sampleModel⟩).1 "menu" "down"

/-- A left-hand component with its element listeners registered, and the gamepad
layer with every index idle. -/
def leftWorld : World :=
  World.start (addEventListeners (init { schema with hand := "left" } sampleElement))

end Daydream

/-! ## Button notifications -/

namespace Daydream

theorem arrayGet_buttons_unmapped (id : Int) (h : id < 0 ∨ 3 ≤ id) :
    arrayGet mapping.buttons id = none := by
  unfold arrayGet
  split
  · rfl
  · apply List.getElem?_eq_none
    simp [mapping]
    omega

theorem arrayGet_buttons_mapped (id : Int) (h : id = 0 ∨ id = 1 ∨ id = 2) :
    ∃ name, arrayGet mapping.buttons id = some name ∧ name ∈ mapping.buttons ∧ name ≠ "" := by
  rcases h with h | h | h <;> subst h
  · exact ⟨"trackpad", rfl, by decide, by decide⟩
  · exact ⟨"menu", rfl, by decide, by decide⟩
  · exact ⟨"system", rfl, by decide, by decide⟩

theorem materialColor_set_self (ms : Materials) (ref : MaterialRef) (color : String) :
    materialColor (setMaterialColor ms ref color) ref = some color := by
  induction ms with
  | nil => simp [setMaterialColor, materialColor]
  | cons p rest ih =>
    obtain ⟨r, col⟩ := p
    by_cases hr : r = ref
    · simp [setMaterialColor, materialColor, hr]
    · simp [setMaterialColor, materialColor, hr, ih]

theorem materialColor_set_other (ms : Materials) (ref other : MaterialRef) (color : String)
    (h : other ≠ ref) :
    materialColor (setMaterialColor ms ref color) other = materialColor ms other := by
  induction ms with
  | nil => simp [setMaterialColor, materialColor, Ne.symm h]
  | cons p rest ih =>
    obtain ⟨r, col⟩ := p
    by_cases hr : r = ref
    · subst hr
      simp [setMaterialColor, materialColor, Ne.symm h]
    · by_cases ho : r = other
      · subst ho
        simp [setMaterialColor, materialColor, h]
      · simp [setMaterialColor, materialColor, hr, ho, ih]

/-- C1: a `buttonchanged` notification for raw index 0, 1 or 2 makes `onButtonChanged`
emit exactly one event, `trackpadchanged`, `menuchanged` or `systemchanged`
respectively, with the state payload untouched, and change nothing else; a second
notification with the same payload emits the same event a second time. -/
theorem onButtonChanged_emits_mapped (c : Component) (s : ButtonState) :
    onButtonChanged c ⟨0, s⟩
        = { c with el := { c.el with
              emitted := c.el.emitted ++ [⟨"trackpadchanged", .state s⟩] } }
    ∧ onButtonChanged c ⟨1, s⟩
        = { c with el := { c.el with
              emitted := c.el.emitted ++ [⟨"menuchanged", .state s⟩] } }
    ∧ onButtonChanged c ⟨2, s⟩
        = { c with el := { c.el with
              emitted := c.el.emitted ++ [⟨"systemchanged", .state s⟩] } }
    ∧ (onButtonChanged (onButtonChanged c ⟨0, s⟩) ⟨0, s⟩).el.emitted
        = c.el.emitted ++ [⟨"trackpadchanged", .state s⟩, ⟨"trackpadchanged", .state s⟩]
    ∧ (onButtonChanged (onButtonChanged c ⟨1, s⟩) ⟨1, s⟩).el.emitted
        = c.el.emitted ++ [⟨"menuchanged", .state s⟩, ⟨"menuchanged", .state s⟩]
    ∧ (onButtonChanged (onButtonChanged c ⟨2, s⟩) ⟨2, s⟩).el.emitted
        = c.el.emitted ++ [⟨"systemchanged", .state s⟩, ⟨"systemchanged", .state s⟩] := by
  refine ⟨rfl, rfl, rfl, ?_, ?_, ?_⟩ <;>
    simp [onButtonChanged, arrayGet, mapping, Element.emit]

/-- C2: a `buttonchanged` notification whose index is outside the button mapping
(negative, or 3 and above) makes `onButtonChanged` return the component unchanged:
nothing is emitted and no field is written. -/
theorem onButtonChanged_ignores_unmapped (c : Component) (id : Int) (s : ButtonState)
    (h : id < 0 ∨ 3 ≤ id) :
    onButtonChanged c ⟨id, s⟩ = c ∧ fired c (onButtonChanged c ⟨id, s⟩) = [] := by
  have hc : onButtonChanged c ⟨id, s⟩ = c := by
    simp [onButtonChanged, arrayGet_buttons_unmapped id h]
  refine ⟨hc, ?_⟩
  rw [hc]
  simp [fired]

theorem onButtonChanged_ignores_unmapped_witness :
    ((3 : Int) < 0 ∨ (3 : Int) ≤ 3)
    ∧ onButtonChanged sampleComponent ⟨3, ⟨true, true, 1⟩⟩ = sampleComponent
    ∧ fired sampleComponent (onButtonChanged sampleComponent ⟨3, ⟨true, true, 1⟩⟩) = [] :=
  ⟨by decide, onButtonChanged_ignores_unmapped sampleComponent 3 ⟨true, true, 1⟩ (by decide)⟩

/-! ## Visual feedback -/

/-- C3, as the code has it: for a button name with a cached mesh, `updateButtonModel`
writes the highlight colour for `down`, the touched colour for `touchstart` and the
idle colour for every other transition kind into the material object of that mesh, so
the mesh shows that colour, and changes nothing else.  The mesh cached under another
button name keeps its colour when its material is a different object, and is
recoloured with it when it refers to the same material object. -/
theorem updateButtonModel_sets_color (c : Component) (t : ButtonMeshes) (b : String)
    (mesh : Mesh) (k : String) (ht : c.buttonMeshes = some t) (hm : t.get b = some mesh) :
    ∃ color : String,
      (k = "down" → color = c.data.buttonHighlightColor)
      ∧ (k = "touchstart" → color = c.data.buttonTouchedColor)
      ∧ (k ≠ "down" → k ≠ "touchstart" → color = c.data.buttonColor)
      ∧ updateButtonModel c b k
          = { c with el := { c.el with
                materials := setMaterialColor c.el.materials mesh.material color } }
      ∧ meshColor (updateButtonModel c b k) b = some color
      ∧ (∀ (b' : String) (mesh' : Mesh), t.get b' = some mesh' →
          mesh'.material ≠ mesh.material →
          meshColor (updateButtonModel c b k) b' = meshColor c b')
      ∧ (∀ (b' : String) (mesh' : Mesh), t.get b' = some mesh' →
          mesh'.material = mesh.material →
          meshColor (updateButtonModel c b k) b' = some color) := by
  have hupd : updateButtonModel c b k
      = { c with el := { c.el with
            materials := setMaterialColor c.el.materials mesh.material
              (if k = "down" then c.data.buttonHighlightColor
               else if k = "touchstart" then c.data.buttonTouchedColor
               else c.data.buttonColor) } } := by
    simp [updateButtonModel, ht, hm]
  refine ⟨if k = "down" then c.data.buttonHighlightColor
      else if k = "touchstart" then c.data.buttonTouchedColor
      else c.data.buttonColor, ?_, ?_, ?_, hupd, ?_, ?_, ?_⟩
  · intro hk
    simp [hk]
  · intro hk
    subst hk
    simp
  · intro h1 h2
    simp [h1, h2]
  · rw [hupd]
    simp [meshColor, ht, hm, materialColor_set_self]
  · intro b' mesh' hb' hne
    rw [hupd]
    simp [meshColor, ht, hb', materialColor_set_other _ _ _ _ hne]
  · intro b' mesh' hb' heq
    rw [hupd]
    simp [meshColor, ht, hb', heq, materialColor_set_self]

theorem updateButtonModel_sets_color_witness :
    (onModelLoaded sampleComponent ⟨sampleModel⟩).1.buttonMeshes = some sampleMeshes
    ∧ sampleMeshes.get "menu" = some ⟨"AppButton_AppButton_Cylinder.004", 1⟩
    ∧ sampleMeshes.get "trackpad" = some ⟨"TouchPad_TouchPad_Cylinder.003", 2⟩
    ∧ (2 : MaterialRef) ≠ 1
    ∧ meshColor (onModelLoaded sampleComponent ⟨sampleModel⟩).1 "trackpad" = some "#000000"
    ∧ ∃ color : String,
      ("down" = "down" →
        color = (onModelLoaded sampleComponent ⟨sampleModel⟩).1.data.buttonHighlightColor)
      ∧ meshColor
          (updateButtonModel (onModelLoaded sampleComponent ⟨sampleModel⟩).1 "menu" "down")
          "menu" = some color
      ∧ meshColor
          (updateButtonModel (onModelLoaded sampleComponent ⟨sampleModel⟩).1 "menu" "down")
          "trackpad"
        = meshColor (onModelLoaded sampleComponent ⟨sampleModel⟩).1 "trackpad" :=
  ⟨by decide, by decide, by decide, by decide, by decide,
   (updateButtonModel_sets_color (onModelLoaded sampleComponent ⟨sampleModel⟩).1
      sampleMeshes "menu" ⟨"AppButton_AppButton_Cylinder.004", 1⟩ "down"
      (by decide) (by decide)).elim
     (fun color h =>
       ⟨color, h.1, h.2.2.2.2.1,
        h.2.2.2.2.2.1 "trackpad" ⟨"TouchPad_TouchPad_Cylinder.003", 2⟩ (by decide)
          (by decide)⟩)⟩

/-- C3 fails as stated: in `sharedComponent` the menu and trackpad meshes refer to
the same material object; a `down` update of the menu button turns the trackpad mesh
from `#000000` to `#FFFFFF` as well. -/
theorem updateButtonModel_recolours_shared :
    sharedComponent.buttonMeshes
        = some ⟨some ⟨"AppButton_AppButton_Cylinder.004", 1⟩, none,
                some ⟨"TouchPad_TouchPad_Cylinder.003", 1⟩⟩
    ∧ meshColor sharedComponent "trackpad" = some "#000000"
    ∧ meshColor (updateButtonModel sharedComponent "menu" "down") "menu" = some "#FFFFFF"
    ∧ meshColor (updateButtonModel sharedComponent "menu" "down") "trackpad"
        = some "#FFFFFF"
    ∧ ¬ (meshColor (updateButtonModel sharedComponent "menu" "down") "trackpad"
          = meshColor sharedComponent "trackpad") := by
  decide

/-- C4: a visual update without a mesh is a no-op: `updateModel` returns the component
unchanged when the model option is false, and `updateButtonModel` returns it
unchanged when the mesh table is still undefined or holds no mesh under the button
name. -/
theorem visual_update_noop_without_mesh (c : Component) (b k : String) :
    (c.data.model = false → updateModel c b k = c)
    ∧ (c.buttonMeshes = none → updateButtonModel c b k = c)
    ∧ (∀ t : ButtonMeshes, c.buttonMeshes = some t → t.get b = none →
        updateButtonModel c b k = c) := by
  refine ⟨?_, ?_, ?_⟩
  · intro h
    simp [updateModel, h]
  · intro h
    simp [updateButtonModel, h]
  · intro t ht hb
    simp [updateButtonModel, ht, hb]

theorem visual_update_noop_without_mesh_witness :
    ((init { schema with model := false } sampleElement).data.model = false
      ∧ updateModel (init { schema with model := false } sampleElement) "menu" "down"
          = init { schema with model := false } sampleElement)
    ∧ (sampleComponent.buttonMeshes = none
      ∧ updateButtonModel sampleComponent "menu" "down" = sampleComponent)
    ∧ ((onModelLoaded sampleComponent ⟨sampleModel⟩).1.buttonMeshes
          = some sampleMeshes
      ∧ ButtonMeshes.get
          sampleMeshes "system" = none
      ∧ updateButtonModel (onModelLoaded sampleComponent ⟨sampleModel⟩).1 "system" "down"
          = (onModelLoaded sampleComponent ⟨sampleModel⟩).1) :=
  ⟨⟨by decide,
    (visual_update_noop_without_mesh
      (init { schema with model := false } sampleElement) "menu" "down").1 (by decide)⟩,
   ⟨by decide,
    (visual_update_noop_without_mesh sampleComponent "menu" "down").2.1 (by decide)⟩,
   ⟨by decide, by decide,
    (visual_update_noop_without_mesh
      (onModelLoaded sampleComponent ⟨sampleModel⟩).1 "system" "down").2.2 sampleMeshes
      (by decide) (by decide)⟩⟩

/-- C9: with the model option on, `onModelLoaded` caches under `menu`, `system` and
`trackpad` whatever the lookup of the fixed mesh name in the model root gives (a
missing mesh is cached as absent and later updates for that button are no-ops) and
puts the model root at (0, 0, -0.04); running it again on the resulting root changes
nothing more.  With the model option off it changes nothing. -/
theorem onModelLoaded_caches_meshes (c : Component) (root : Object3D) :
    (c.data.model = true →
      (onModelLoaded c ⟨root⟩).1
          = { c with
              buttonMeshes := some
                { menu := root.getObjectByName "AppButton_AppButton_Cylinder.004"
                  system := root.getObjectByName "HomeButton_HomeButton_Cylinder.005"
                  trackpad := root.getObjectByName "TouchPad_TouchPad_Cylinder.003" } }
      ∧ (onModelLoaded c ⟨root⟩).2 = { root with position := ⟨0, 0, -0.04⟩ }
      ∧ (∀ b : String,
          ButtonMeshes.get
            { menu := root.getObjectByName "AppButton_AppButton_Cylinder.004"
              system := root.getObjectByName "HomeButton_HomeButton_Cylinder.005"
              trackpad := root.getObjectByName "TouchPad_TouchPad_Cylinder.003" } b = none →
          ∀ k : String,
            updateButtonModel (onModelLoaded c ⟨root⟩).1 b k = (onModelLoaded c ⟨root⟩).1)
      ∧ onModelLoaded (onModelLoaded c ⟨root⟩).1 ⟨(onModelLoaded c ⟨root⟩).2⟩
          = onModelLoaded c ⟨root⟩)
    ∧ (c.data.model = false → onModelLoaded c ⟨root⟩ = (c, root)) := by
  constructor
  · intro h
    have h1 : (onModelLoaded c ⟨root⟩).1
          = { c with
              buttonMeshes := some
                { menu := root.getObjectByName "AppButton_AppButton_Cylinder.004"
                  system := root.getObjectByName "HomeButton_HomeButton_Cylinder.005"
                  trackpad := root.getObjectByName "TouchPad_TouchPad_Cylinder.003" } } := by
      simp [onModelLoaded, h]
    have h2 : (onModelLoaded c ⟨root⟩).2 = { root with position := ⟨0, 0, -0.04⟩ } := by
      simp [onModelLoaded, h]
    refine ⟨h1, h2, ?_, ?_⟩
    · intro b hb k
      rw [h1]
      simp [updateButtonModel, hb]
    · rw [h1, h2]
      simp [onModelLoaded, h, Object3D.getObjectByName]
  · intro h
    simp [onModelLoaded, h]

theorem onModelLoaded_caches_meshes_witness :
    (sampleComponent.data.model = true
      ∧ (onModelLoaded sampleComponent ⟨sampleModel⟩).1
          = { sampleComponent with
              buttonMeshes := some
                { menu := sampleModel.getObjectByName "AppButton_AppButton_Cylinder.004"
                  system := sampleModel.getObjectByName "HomeButton_HomeButton_Cylinder.005"
                  trackpad := sampleModel.getObjectByName "TouchPad_TouchPad_Cylinder.003" } }
      ∧ (onModelLoaded sampleComponent ⟨sampleModel⟩).2
          = { sampleModel with position := ⟨0, 0, -0.04⟩ }
      ∧ sampleModel.getObjectByName "HomeButton_HomeButton_Cylinder.005" = none
      ∧ updateButtonModel (onModelLoaded sampleComponent ⟨sampleModel⟩).1 "system" "down"
          = (onModelLoaded sampleComponent ⟨sampleModel⟩).1
      ∧ onModelLoaded (onModelLoaded sampleComponent ⟨sampleModel⟩).1
            ⟨(onModelLoaded sampleComponent ⟨sampleModel⟩).2⟩
          = onModelLoaded sampleComponent ⟨sampleModel⟩)
    ∧ ((init { schema with model := false } sampleElement).data.model = false
      ∧ onModelLoaded (init { schema with model := false } sampleElement) ⟨sampleModel⟩
          = (init { schema with model := false } sampleElement, sampleModel)) :=
  ⟨⟨by decide,
    ((onModelLoaded_caches_meshes sampleComponent sampleModel).1 (by decide)).1,
    ((onModelLoaded_caches_meshes sampleComponent sampleModel).1 (by decide)).2.1,
    by decide,
    ((onModelLoaded_caches_meshes sampleComponent sampleModel).1 (by decide)).2.2.1
      "system" (by decide) "down",
    ((onModelLoaded_caches_meshes sampleComponent sampleModel).1 (by decide)).2.2.2⟩,
   ⟨by decide,
    (onModelLoaded_caches_meshes (init { schema with model := false } sampleElement)
      sampleModel).2 (by decide)⟩⟩

/-! ## Attributes pushed to the collaborators -/

theorem getAttr_setAttr_self (l : List (String × AttrValue)) (name : String) (v : AttrValue) :
    getAttr (setAttr l name v) name = some v := by
  induction l with
  | nil => simp [setAttr, getAttr]
  | cons p rest ih =>
    obtain ⟨k, w⟩ := p
    by_cases hk : k = name
    · simp [setAttr, getAttr, hk]
    · simp [setAttr, getAttr, hk, ih]

theorem getAttr_setAttr_other (l : List (String × AttrValue)) (name other : String)
    (v : AttrValue) (h : other ≠ name) :
    getAttr (setAttr l name v) other = getAttr l other := by
  induction l with
  | nil => simp [setAttr, getAttr, Ne.symm h]
  | cons p rest ih =>
    obtain ⟨k, w⟩ := p
    by_cases hk : k = name
    · subst hk
      simp [setAttr, getAttr, Ne.symm h]
    · by_cases ho : k = other
      · subst ho
        simp [setAttr, getAttr, h]
      · simp [setAttr, getAttr, hk, ho, ih]

theorem setAttr_of_getAttr (l : List (String × AttrValue)) (name : String) (v : AttrValue)
    (h : getAttr l name = some v) : setAttr l name v = l := by
  induction l with
  | nil => simp [getAttr] at h
  | cons p rest ih =>
    obtain ⟨k, w⟩ := p
    by_cases hk : k = name
    · simp [getAttr, hk] at h
      simp [setAttr, hk, h]
    · simp [getAttr, hk] at h
      simp [setAttr, hk, ih h]

/-- C10: `injectTrackedControls` pushes the record
`{armModel, hand, idPrefix: 'Daydream Controller', rotationOffset}` taken from the
data under `tracked-controls`, then the load request for the two Daydream model files
under `obj-model` exactly when the model option is on, and touches nothing but the
element's attributes; a second run leaves the attributes as the first left them. -/
theorem injectTrackedControls_pushes (c : Component) :
    (injectTrackedControls c).el.setAttributeCalls
        = c.el.setAttributeCalls
          ++ [("tracked-controls",
                AttrValue.trackedControls c.data.armModel c.data.hand "Daydream Controller"
                  c.data.rotationOffset)]
          ++ (if c.data.model = true then
                [("obj-model",
                  AttrValue.objModel "vr_controller_daydream.obj" "vr_controller_daydream.mtl")]
              else [])
    ∧ getAttr (injectTrackedControls c).el.attributes "tracked-controls"
        = some (AttrValue.trackedControls c.data.armModel c.data.hand "Daydream Controller"
                  c.data.rotationOffset)
    ∧ getAttr (injectTrackedControls c).el.attributes "obj-model"
        = (if c.data.model = true then
            some (AttrValue.objModel "vr_controller_daydream.obj" "vr_controller_daydream.mtl")
           else getAttr c.el.attributes "obj-model")
    ∧ (injectTrackedControls (injectTrackedControls c)).el.attributes
        = (injectTrackedControls c).el.attributes
    ∧ injectTrackedControls c
        = { c with el := { c.el with
              attributes := (injectTrackedControls c).el.attributes
              setAttributeCalls := (injectTrackedControls c).el.setAttributeCalls } } := by
  have hne : ("tracked-controls" : String) ≠ "obj-model" := by decide
  cases hm : c.data.model
  · refine ⟨?_, ?_, ?_, ?_, ?_⟩
    · simp [injectTrackedControls, hm, Element.setAttribute, GAMEPAD_ID_PREFIX]
    · simp [injectTrackedControls, hm, Element.setAttribute, GAMEPAD_ID_PREFIX,
        getAttr_setAttr_self]
    · simp [injectTrackedControls, hm, Element.setAttribute]
      exact getAttr_setAttr_other _ _ _ _ hne.symm
    · simp [injectTrackedControls, hm, Element.setAttribute]
      exact setAttr_of_getAttr _ _ _ (getAttr_setAttr_self _ _ _)
    · simp [injectTrackedControls, hm, Element.setAttribute]
  · refine ⟨?_, ?_, ?_, ?_, ?_⟩
    · simp [injectTrackedControls, hm, Element.setAttribute, GAMEPAD_ID_PREFIX,
        DAYDREAM_CONTROLLER_MODEL_OBJ_URL, DAYDREAM_CONTROLLER_MODEL_OBJ_MTL]
    · simp [injectTrackedControls, hm, Element.setAttribute, GAMEPAD_ID_PREFIX]
      rw [getAttr_setAttr_other _ _ _ _ hne, getAttr_setAttr_self]
    · simp [injectTrackedControls, hm, Element.setAttribute,
        DAYDREAM_CONTROLLER_MODEL_OBJ_URL, DAYDREAM_CONTROLLER_MODEL_OBJ_MTL,
        getAttr_setAttr_self]
    · simp [injectTrackedControls, hm, Element.setAttribute]
      rw [setAttr_of_getAttr (setAttr (setAttr c.el.attributes _ _) _ _) "tracked-controls"]
      · exact setAttr_of_getAttr _ _ _ (getAttr_setAttr_self _ _ _)
      · rw [getAttr_setAttr_other _ _ _ _ hne, getAttr_setAttr_self]
    · simp [injectTrackedControls, hm, Element.setAttribute]

/-! ## Detaching -/

theorem mem_removeEventListener (ls : Listeners) (name : String) (h : Handler)
    (p : String × Handler) :
    p ∈ removeEventListener ls name h ↔ p ∈ ls ∧ p ≠ (name, h) := by
  simp [removeEventListener, List.mem_filter]

theorem mem_removeEventListeners (c : Component) (p : String × Handler) :
    p ∈ (removeEventListeners c).el.listeners ↔ p ∈ c.el.listeners ∧ p ∉ elementHandlers := by
  simp only [removeEventListeners, mem_removeEventListener, elementHandlers,
    List.mem_cons, List.mem_singleton, List.not_mem_nil, or_false, not_or]
  tauto

theorem ownHandlersFor_eq_nil (ls : Listeners)
    (h : ∀ p ∈ ls, p.2.isOwn = false) (name : String) : ownHandlersFor ls name = [] := by
  simp only [ownHandlersFor, handlersFor, List.filter_eq_nil_iff, List.mem_map,
    List.mem_filter]
  rintro a ⟨p, ⟨hp, -⟩, rfl⟩
  simp [h p hp]

theorem foldl_invoke_foreign (n : Notification) (hs : List Handler)
    (h : hs.filter Handler.isOwn = []) (c : Component) :
    hs.foldl (fun c h => invoke c h n) c = c := by
  induction hs generalizing c with
  | nil => rfl
  | cons a rest ih =>
    have hall := List.filter_eq_nil_iff.mp h
    have ha : a.isOwn = false := by
      simpa using hall a (List.mem_cons_self _ _)
    have hrest : rest.filter Handler.isOwn = [] :=
      List.filter_eq_nil_iff.mpr (fun x hx => hall x (List.mem_cons_of_mem _ hx))
    cases a with
    | foreign m => simpa [invoke] using ih hrest c
    | _ => simp [Handler.isOwn] at ha

theorem ownPaired_iff (ls own : Listeners) :
    ownPaired ls own = true ↔ ∀ p ∈ ls, p.2.isOwn = true → p ∈ own := by
  simp only [ownPaired, List.all_eq_true, Bool.or_eq_true, Bool.not_eq_true',
    List.contains_iff_exists_mem_beq, beq_iff_eq, exists_eq_right']
  constructor
  · intro h p hp hown
    rcases h p hp with h1 | h2
    · rw [h1] at hown
      cases hown
    · exact h2
  · intro h p hp
    cases hown : p.2.isOwn
    · exact Or.inl rfl
    · exact Or.inr (h p hp hown)

theorem ownPaired_addEventListener (ls own : Listeners) (name : String) (h : Handler)
    (hls : ownPaired ls own = true) (hmem : (name, h) ∈ own) :
    ownPaired (addEventListener ls name h) own = true := by
  rw [ownPaired_iff] at hls ⊢
  intro p hp hown
  unfold addEventListener at hp
  split_ifs at hp
  · exact hls p hp hown
  · rcases List.mem_append.mp hp with h1 | h1
    · exact hls p h1 hown
    · rw [List.mem_singleton.mp h1]
      exact hmem

/-- The component's own registrations keep its handlers under their own pairs: the
premise of the dispatch part of `pause_detaches_all` holds after `init` on an
element carrying no handler of the component, and `addEventListeners` and
`addControllersUpdateListener` preserve it. -/
theorem ownPaired_preserved (c : Component)
    (hEl : ownPaired c.el.listeners elementHandlers = true)
    (hSc : ownPaired c.el.sceneListeners sceneHandlers = true) :
    ownPaired (addEventListeners c).el.listeners elementHandlers = true
    ∧ ownPaired (addEventListeners c).el.sceneListeners sceneHandlers = true
    ∧ ownPaired (addControllersUpdateListener c).el.listeners elementHandlers = true
    ∧ ownPaired (addControllersUpdateListener c).el.sceneListeners sceneHandlers = true := by
  refine ⟨?_, hSc, hEl, ?_⟩
  · have h1 := ownPaired_addEventListener _ elementHandlers "buttonchanged"
      .onButtonChanged hEl (by decide)
    have h2 := ownPaired_addEventListener _ elementHandlers "buttondown"
      .onButtonDown h1 (by decide)
    have h3 := ownPaired_addEventListener _ elementHandlers "buttonup"
      .onButtonUp h2 (by decide)
    have h4 := ownPaired_addEventListener _ elementHandlers "touchstart"
      .onButtonTouchStart h3 (by decide)
    have h5 := ownPaired_addEventListener _ elementHandlers "touchend"
      .onButtonTouchEnd h4 (by decide)
    have h6 := ownPaired_addEventListener _ elementHandlers "model-loaded"
      .onModelLoaded h5 (by decide)
    have h7 := ownPaired_addEventListener _ elementHandlers "axismove"
      .onAxisMoved h6 (by decide)
    simpa only [addEventListeners] using h7
  · have h := ownPaired_addEventListener c.el.sceneListeners sceneHandlers
      "controllersupdated" .onControllersUpdate hSc (by decide)
    simpa only [addControllersUpdateListener] using h

/-- C7: after `pause` none of the seven (event, handler) pairs of `addEventListeners`
is registered on the element, the `controllersupdated` handler is not registered on
the scene and `controllerEventsActive` is false.  In a state where the component's
handlers are registered under their own pairs only, no notification then reaches a
handler of the component, and delivering any notification leaves the component as
`pause` left it. -/
theorem pause_detaches_all (c : Component) :
    (∀ p ∈ elementHandlers, p ∉ (pause c).el.listeners)
    ∧ (∀ p ∈ sceneHandlers, p ∉ (pause c).el.sceneListeners)
    ∧ (pause c).controllerEventsActive = some false
    ∧ (ownPaired c.el.listeners elementHandlers = true →
        (∀ name : String, ownHandlersFor (pause c).el.listeners name = [])
        ∧ (∀ n : Notification, dispatchEvent (pause c) n = pause c))
    ∧ (ownPaired c.el.sceneListeners sceneHandlers = true →
        ∀ name : String, ownHandlersFor (pause c).el.sceneListeners name = []) := by
  have hEl : (pause c).el.listeners = (removeEventListeners c).el.listeners := rfl
  have hSc : (pause c).el.sceneListeners
      = removeEventListener c.el.sceneListeners "controllersupdated" .onControllersUpdate := rfl
  refine ⟨?_, ?_, rfl, ?_, ?_⟩
  · intro p hp hmem
    rw [hEl, mem_removeEventListeners] at hmem
    exact hmem.2 hp
  · intro p hp hmem
    rw [hSc, mem_removeEventListener] at hmem
    simp [sceneHandlers] at hp
    exact hmem.2 hp
  · intro hown
    have hnone : ∀ name : String, ownHandlersFor (pause c).el.listeners name = [] := by
      intro name
      apply ownHandlersFor_eq_nil
      intro p hp
      rw [hEl, mem_removeEventListeners] at hp
      have := (List.all_eq_true.mp hown) p hp.1
      simp only [Bool.or_eq_true, Bool.not_eq_true', List.contains_iff_exists_mem_beq,
        beq_iff_eq, exists_eq_right'] at this
      rcases this with h1 | h2
      · exact h1
      · exact absurd (by simpa using h2) hp.2
    refine ⟨hnone, ?_⟩
    intro n
    exact foldl_invoke_foreign n _ (hnone n.name) (pause c)
  · intro hown name
    apply ownHandlersFor_eq_nil
    intro p hp
    rw [hSc, mem_removeEventListener] at hp
    have := (List.all_eq_true.mp hown) p hp.1
    simp only [Bool.or_eq_true, Bool.not_eq_true', List.contains_iff_exists_mem_beq,
      beq_iff_eq, exists_eq_right'] at this
    rcases this with h1 | h2
    · exact h1
    · exact absurd (by simpa [sceneHandlers] using h2) hp.2

theorem pause_detaches_all_witness :
    ownPaired attachedComponent.el.listeners elementHandlers = true
    ∧ ownPaired attachedComponent.el.sceneListeners sceneHandlers = true
    ∧ attachedComponent.el.listeners = ("buttonchanged", Handler.foreign 0) :: elementHandlers
    ∧ (pause attachedComponent).el.listeners = [("buttonchanged", Handler.foreign 0)]
    ∧ (∀ name : String, ownHandlersFor (pause attachedComponent).el.listeners name = [])
    ∧ (∀ n : Notification, dispatchEvent (pause attachedComponent) n = pause attachedComponent)
    ∧ (∀ name : String,
        ownHandlersFor (pause attachedComponent).el.sceneListeners name = []) :=
  ⟨by decide, by decide, by decide, by decide,
   ((pause_detaches_all attachedComponent).2.2.2.1 (by decide)).1,
   ((pause_detaches_all attachedComponent).2.2.2.1 (by decide)).2,
   (pause_detaches_all attachedComponent).2.2.2.2 (by decide)⟩

theorem removeEventListeners_listeners (c : Component) :
    (removeEventListeners c).el.listeners
      = c.el.listeners.filter (fun p => !elementHandlers.contains p) := by
  simp only [removeEventListeners, removeEventListener, List.filter_filter]
  apply List.filter_congr
  intro p _
  simp only [elementHandlers, List.contains_cons, List.contains_nil, Bool.or_false,
    Bool.not_or, Bool.and_assoc]
  cases (p == ("buttonchanged", Handler.onButtonChanged)) <;>
    cases (p == ("buttondown", Handler.onButtonDown)) <;>
    cases (p == ("buttonup", Handler.onButtonUp)) <;>
    cases (p == ("touchstart", Handler.onButtonTouchStart)) <;>
    cases (p == ("touchend", Handler.onButtonTouchEnd)) <;>
    cases (p == ("model-loaded", Handler.onModelLoaded)) <;>
    cases (p == ("axismove", Handler.onAxisMoved)) <;> rfl

/-- C8, as the code has it: `removeEventListeners` changes the listener table of the
element, from which exactly the seven pairs of `addEventListeners` are dropped, and
`controllerEventsActive`, which becomes false; every other part of the state, the
data, the mesh table and the material colours among them, is left as it was, so each
button mesh shows the colour it showed before.  The mesh of a button shows the idle
colour after a later `updateButtonModel` for that button with a transition kind other
than `down` and `touchstart`. -/
theorem removeEventListeners_keeps_meshes (c : Component) :
    removeEventListeners c
        = { c with
            el := { c.el with
              listeners := c.el.listeners.filter (fun p => !elementHandlers.contains p) }
            controllerEventsActive := some false }
    ∧ (removeEventListeners c).buttonMeshes = c.buttonMeshes
    ∧ (removeEventListeners c).data = c.data
    ∧ (removeEventListeners c).el.materials = c.el.materials
    ∧ (removeEventListeners c).controllerEventsActive = some false
    ∧ (∀ p ∈ elementHandlers, p ∉ (removeEventListeners c).el.listeners)
    ∧ (∀ b : String, meshColor (removeEventListeners c) b = meshColor c b)
    ∧ (∀ (b k : String) (t : ButtonMeshes) (mesh : Mesh),
        c.buttonMeshes = some t → t.get b = some mesh → k ≠ "down" → k ≠ "touchstart" →
        meshColor (updateButtonModel (removeEventListeners c) b k) b
          = some c.data.buttonColor) := by
  have hfull : removeEventListeners c
        = { c with
            el := { c.el with
              listeners := c.el.listeners.filter (fun p => !elementHandlers.contains p) }
            controllerEventsActive := some false } := by
    have h := removeEventListeners_listeners c
    simp only [removeEventListeners] at h ⊢
    rw [h]
  refine ⟨hfull, rfl, rfl, rfl, rfl, ?_, fun _ => rfl, ?_⟩
  · intro p hp hmem
    rw [mem_removeEventListeners] at hmem
    exact hmem.2 hp
  · intro b k t mesh ht hm h1 h2
    simp [meshColor, updateButtonModel, removeEventListeners, ht, hm, h1, h2,
      materialColor_set_self]

theorem removeEventListeners_keeps_meshes_witness :
    highlightedComponent.buttonMeshes = some sampleMeshes
    ∧ sampleMeshes.get "menu" = some ⟨"AppButton_AppButton_Cylinder.004", 1⟩
    ∧ meshColor highlightedComponent "menu" = some "#FFFFFF"
    ∧ meshColor (updateButtonModel (removeEventListeners highlightedComponent) "menu" "up")
          "menu"
        = some highlightedComponent.data.buttonColor :=
  ⟨by decide, by decide, by decide,
   (removeEventListeners_keeps_meshes highlightedComponent).2.2.2.2.2.2.2 "menu" "up"
     sampleMeshes ⟨"AppButton_AppButton_Cylinder.004", 1⟩
     (by decide) (by decide) (by decide) (by decide)⟩

/-- C8 fails as stated: the menu mesh of `highlightedComponent` shows the highlight
colour `#FFFFFF`; after `removeEventListeners` it still shows `#FFFFFF`, not the idle
colour `#000000`, and it keeps showing it after a visual refresh of another button
and after a `down` refresh of the menu button itself. -/
theorem removeEventListeners_keeps_highlight :
    meshColor highlightedComponent "menu" = some "#FFFFFF"
    ∧ highlightedComponent.data.buttonColor = "#000000"
    ∧ meshColor (removeEventListeners highlightedComponent) "menu" = some "#FFFFFF"
    ∧ meshColor (updateModel (removeEventListeners highlightedComponent) "trackpad" "up")
        "menu" = some "#FFFFFF"
    ∧ meshColor (updateModel (removeEventListeners highlightedComponent) "menu" "down")
        "menu" = some "#FFFFFF"
    ∧ ¬ (meshColor (updateModel (removeEventListeners highlightedComponent) "trackpad" "up")
          "menu" = some highlightedComponent.data.buttonColor) := by
  decide

/-! ## Axis notifications -/

/-- C6: `onAxisMoved` emits one `trackpadchanged` axis event carrying the current
values of raw axes 0 and 1 exactly when one of the two differs from the previous
snapshot, and changes nothing else; a notification whose axes vector equals the
previous snapshot leaves the component unchanged.  Going from `[0, 0]` to `[0.5, 0]`
emits one event with `[0.5, 0]`, and a follow-up `[0.5, 0]` emits nothing. -/
theorem onAxisMoved_emits_iff_changed (c : Component) (evt : AxisMoveEvent) :
    onAxisMoved c evt
        = (if evt.axis[0]? ≠ evt.previous[0]? ∨ evt.axis[1]? ≠ evt.previous[1]? then
            { c with el := { c.el with
                emitted := c.el.emitted
                  ++ [⟨"trackpadchanged", .axes [evt.axis[0]?, evt.axis[1]?]⟩] } }
           else c)
    ∧ (fired c (onAxisMoved c evt) ≠ []
        ↔ (evt.axis[0]? ≠ evt.previous[0]? ∨ evt.axis[1]? ≠ evt.previous[1]?))
    ∧ onAxisMoved c ⟨evt.axis, evt.axis⟩ = c
    ∧ fired sampleComponent (onAxisMoved sampleComponent ⟨[0.5, 0], [0, 0]⟩)
        = [⟨"trackpadchanged", .axes [some 0.5, some 0]⟩]
    ∧ fired (onAxisMoved sampleComponent ⟨[0.5, 0], [0, 0]⟩)
          (onAxisMoved (onAxisMoved sampleComponent ⟨[0.5, 0], [0, 0]⟩) ⟨[0.5, 0], [0.5, 0]⟩)
        = [] := by
  have key : ∀ (c : Component) (evt : AxisMoveEvent), onAxisMoved c evt
        = (if evt.axis[0]? ≠ evt.previous[0]? ∨ evt.axis[1]? ≠ evt.previous[1]? then
            { c with el := { c.el with
                emitted := c.el.emitted
                  ++ [⟨"trackpadchanged", .axes [evt.axis[0]?, evt.axis[1]?]⟩] } }
           else c) := by
    intro c evt
    simp only [onAxisMoved, emitIfAxesChanged, mapping, List.foldl, List.any, Bool.or_false,
      List.map, Element.emit]
    by_cases h0 : evt.axis[0]? = evt.previous[0]?
    · by_cases h1 : evt.axis[1]? = evt.previous[1]?
      · simp [h0, h1]
      · simp [h0, h1]
    · simp [h0]
  refine ⟨key c evt, ?_, ?_, ?_, ?_⟩
  · rw [key c evt]
    split_ifs with h
    · simp [fired, h]
    · simp [fired, h]
  · rw [key]
    simp
  · rw [key]
    norm_num [fired, sampleComponent, init, sampleElement]
  · rw [key, key]
    simp [fired]

/-! ## Edge-triggered transitions -/

theorem updateButtonModel_frame (c : Component) (b k : String) :
    (updateButtonModel c b k).el.listeners = c.el.listeners
    ∧ (updateButtonModel c b k).el.emitted = c.el.emitted := by
  unfold updateButtonModel
  split
  · exact ⟨rfl, rfl⟩
  · split <;> exact ⟨rfl, rfl⟩

theorem updateModel_frame (c : Component) (b k : String) :
    (updateModel c b k).el.listeners = c.el.listeners
    ∧ (updateModel c b k).el.emitted = c.el.emitted := by
  unfold updateModel
  split_ifs
  · exact ⟨rfl, rfl⟩
  · exact updateButtonModel_frame c b k

theorem onButtonEvent_listeners (id : Int) (k : String) (c : Component) :
    (onButtonEvent id k c).el.listeners = c.el.listeners := by
  unfold onButtonEvent
  split
  · rfl
  · rw [(updateModel_frame _ _ _).1]
    rfl

theorem onButtonEvent_emitted (id : Int) (k : String) (c : Component) :
    (onButtonEvent id k c).el.emitted
      = match arrayGet mapping.buttons id with
        | none => c.el.emitted
        | some name => c.el.emitted ++ [⟨name ++ k, .none⟩] := by
  unfold onButtonEvent
  split
  · rfl
  · rw [(updateModel_frame _ _ _).2]
    rfl

theorem onButtonChanged_el (c : Component) (evt : ButtonEvent) :
    (onButtonChanged c evt).el.listeners = c.el.listeners := by
  unfold onButtonChanged
  split
  · rfl
  · split_ifs <;> rfl

theorem onAxisMoved_el (c : Component) (evt : AxisMoveEvent) :
    (onAxisMoved c evt).el.listeners = c.el.listeners := by
  simp only [onAxisMoved, emitIfAxesChanged, mapping, List.foldl]
  split_ifs <;> rfl

theorem onModelLoaded_el (c : Component) (evt : ModelLoadedEvent) :
    (onModelLoaded c evt).1.el = c.el := by
  unfold onModelLoaded
  split_ifs <;> rfl

theorem invoke_listeners (c : Component) (h : Handler) (n : Notification) :
    (invoke c h n).el.listeners = c.el.listeners := by
  have hev : ∀ (id : Int) (k : String), (onButtonEvent id k c).el.listeners = c.el.listeners :=
    fun id k => onButtonEvent_listeners id k c
  cases h <;> cases n <;>
    simp only [invoke, onButtonDown, onButtonUp, onButtonTouchStart, onButtonTouchEnd,
      onButtonChanged_el, onAxisMoved_el, onModelLoaded_el, hev]

theorem dispatchEvent_listeners (c : Component) (n : Notification) :
    (dispatchEvent c n).el.listeners = c.el.listeners := by
  unfold dispatchEvent
  generalize handlersFor c.el.listeners n.name = hs
  induction hs generalizing c with
  | nil => rfl
  | cons a rest ih =>
    simp only [List.foldl]
    rw [ih, invoke_listeners]

theorem foldl_invoke_own (n : Notification) (hs : List Handler) (c : Component) :
    hs.foldl (fun c h => invoke c h n) c
      = (hs.filter Handler.isOwn).foldl (fun c h => invoke c h n) c := by
  induction hs generalizing c with
  | nil => rfl
  | cons a rest ih =>
    cases a with
    | foreign m => simpa [List.filter, Handler.isOwn, invoke] using ih c
    | _ => simpa [List.filter, Handler.isOwn] using ih _

theorem dispatchEvent_single (c : Component) (n : Notification) (h : Handler)
    (hown : ownHandlersFor c.el.listeners n.name = [h]) :
    dispatchEvent c n = invoke c h n := by
  unfold dispatchEvent
  rw [foldl_invoke_own]
  unfold ownHandlersFor at hown
  rw [hown]
  rfl

theorem buttonsAttached_iff (c : Component) :
    buttonsAttached c = true ↔
      ownHandlersFor c.el.listeners "buttonchanged" = [.onButtonChanged]
      ∧ ownHandlersFor c.el.listeners "buttondown" = [.onButtonDown]
      ∧ ownHandlersFor c.el.listeners "buttonup" = [.onButtonUp]
      ∧ ownHandlersFor c.el.listeners "touchstart" = [.onButtonTouchStart]
      ∧ ownHandlersFor c.el.listeners "touchend" = [.onButtonTouchEnd] := by
  simp [buttonsAttached, and_assoc]

theorem buttonsAttached_congr (c d : Component) (h : d.el.listeners = c.el.listeners) :
    buttonsAttached d = buttonsAttached c := by
  simp [buttonsAttached, h]

theorem buttonsAttached_deliverButton (w : World) (id : Int) (s : ButtonState) :
    buttonsAttached (deliverButton w id s).component = buttonsAttached w.component := by
  apply buttonsAttached_congr
  simp only [deliverButton]
  generalize handleButton (w.recorded id) id s = ns
  generalize w.component = c
  induction ns generalizing c with
  | nil => rfl
  | cons n rest ih =>
    simp only [List.foldl]
    rw [ih, dispatchEvent_listeners]

theorem buttonsAttached_deliverAll (w : World) (xs : List (Int × ButtonState)) :
    buttonsAttached (deliverAll w xs).component = buttonsAttached w.component := by
  unfold deliverAll
  induction xs generalizing w with
  | nil => rfl
  | cons x rest ih =>
    simp only [List.foldl]
    rw [ih, buttonsAttached_deliverButton]

theorem recorded_deliverAll (w : World) (xs : List (Int × ButtonState)) (id : Int)
    (h : ∀ x ∈ xs, x.1 ≠ id) : (deliverAll w xs).recorded id = w.recorded id := by
  unfold deliverAll
  induction xs generalizing w with
  | nil => rfl
  | cons x rest ih =>
    simp only [List.foldl]
    rw [ih _ (fun y hy => h y (List.mem_cons_of_mem _ hy))]
    have hx : id ≠ x.1 := fun e => h x (List.mem_cons_self _ _) e.symm
    simp [deliverButton, hx]

/-- The log after one snapshot for a mapped index, on an attached component: the
transition event chosen by the edge detection, if any, then the changed event. -/
theorem deliverButton_emitted (w : World) (id : Int) (s : ButtonState) (name : String)
    (hA : buttonsAttached w.component = true)
    (hname : arrayGet mapping.buttons id = some name) (hne : name ≠ "") :
    (deliverButton w id s).component.el.emitted
      = w.component.el.emitted
        ++ (if s.pressed ≠ (w.recorded id).1 then
              [⟨name ++ (if s.pressed then "down" else "up"), .none⟩]
            else if s.touched ≠ (w.recorded id).2 then
              [⟨name ++ (if s.touched then "touchstart" else "touchend"), .none⟩]
            else [])
        ++ [⟨name ++ "changed", .state s⟩] := by
  obtain ⟨hC, hD, hU, hTS, hTE⟩ := (buttonsAttached_iff w.component).mp hA
  have hchg : ∀ c : Component, c.el.listeners = w.component.el.listeners →
      (dispatchEvent c (.button "buttonchanged" ⟨id, s⟩)).el.emitted
        = c.el.emitted ++ [⟨name ++ "changed", .state s⟩] := by
    intro c hc
    rw [dispatchEvent_single c _ .onButtonChanged (by rw [hc]; exact hC)]
    simp [invoke, onButtonChanged, hname, hne, Element.emit]
  have hedge : ∀ (evtName k : String) (h : Handler),
      ownHandlersFor w.component.el.listeners evtName = [h] →
      (∀ c : Component, invoke c h (.button evtName ⟨id, s⟩) = onButtonEvent id k c) →
      (dispatchEvent (dispatchEvent w.component (.button evtName ⟨id, s⟩))
          (.button "buttonchanged" ⟨id, s⟩)).el.emitted
        = w.component.el.emitted ++ [⟨name ++ k, .none⟩] ++ [⟨name ++ "changed", .state s⟩] := by
    intro evtName k h hown hinv
    rw [hchg _ (dispatchEvent_listeners _ _), dispatchEvent_single _ _ h hown, hinv,
      onButtonEvent_emitted]
    simp [hname]
  simp only [deliverButton, handleButton]
  by_cases hp : s.pressed = (w.recorded id).1
  · by_cases ht : s.touched = (w.recorded id).2
    · simp only [hp, ht, bne_self_eq_false, Bool.false_eq_true, if_false, ne_eq,
        not_true_eq_false, List.nil_append, List.foldl, List.append_nil]
      exact hchg _ rfl
    · have ht' : (s.touched != (w.recorded id).2) = true := by simpa using ht
      simp only [hp, ht', bne_self_eq_false, Bool.false_eq_true, if_false, if_true, ne_eq,
        not_true_eq_false, ht, not_false_eq_true, List.singleton_append, List.foldl]
      cases hts : s.touched
      · simpa [hts] using hedge "touchend" "touchend" .onButtonTouchEnd hTE (fun _ => rfl)
      · simpa [hts] using hedge "touchstart" "touchstart" .onButtonTouchStart hTS
          (fun _ => rfl)
  · have hp' : (s.pressed != (w.recorded id).1) = true := by simpa using hp
    simp only [hp', if_true, ne_eq, hp, not_false_eq_true, List.singleton_append, List.foldl]
    cases hps : s.pressed
    · simpa [hps] using hedge "buttonup" "up" .onButtonUp hU (fun _ => rfl)
    · simpa [hps] using hedge "buttondown" "down" .onButtonDown hD (fun _ => rfl)

theorem fired_append (before after : Component) (xs : List Emitted)
    (h : after.el.emitted = before.el.emitted ++ xs) : fired before after = xs := by
  simp [fired, h]

theorem fired_deliverButton (w : World) (id : Int) (s : ButtonState) (name : String)
    (hA : buttonsAttached w.component = true)
    (hname : arrayGet mapping.buttons id = some name) (hne : name ≠ "") :
    fired w.component (deliverButton w id s).component
      = (if s.pressed ≠ (w.recorded id).1 then
            [⟨name ++ (if s.pressed then "down" else "up"), .none⟩]
          else if s.touched ≠ (w.recorded id).2 then
            [⟨name ++ (if s.touched then "touchstart" else "touchend"), .none⟩]
          else [])
        ++ [⟨name ++ "changed", .state s⟩] := by
  apply fired_append
  rw [deliverButton_emitted w id s name hA hname hne, List.append_assoc]

theorem transition_in_fired_iff (name : String) (hname : name ∈ mapping.buttons)
    (r : Bool × Bool) (s : ButtonState) :
    (∃ e ∈ (if s.pressed ≠ r.1 then
              [(⟨name ++ (if s.pressed then "down" else "up"), .none⟩ : Emitted)]
            else if s.touched ≠ r.2 then
              [⟨name ++ (if s.touched then "touchstart" else "touchend"), .none⟩]
            else [])
          ++ [⟨name ++ "changed", .state s⟩], isTransitionEvent e = true)
      ↔ (s.pressed, s.touched) ≠ r := by
  obtain ⟨r1, r2⟩ := r
  obtain ⟨sp, st, sv⟩ := s
  simp only [mapping, List.mem_cons, List.mem_singleton, List.not_mem_nil, or_false] at hname
  rcases hname with rfl | rfl | rfl <;> cases sp <;> cases st <;> cases r1 <;> cases r2 <;>
    simp [isTransitionEvent] <;> decide

/-- C5: on a component whose button handlers are attached, a snapshot for a mapped
index fires a transition event (`<button>down`, `up`, `touchstart` or `touchend`)
exactly when its (pressed, touched) pair differs from the pair recorded for the
index, and that is the pair of the preceding snapshot for the index, whatever
snapshots for other indices came in between; the same snapshot delivered twice in a
row fires only the changed event the second time.  On a left-hand component, index 0
with `{pressed: true}` fires `trackpaddown` and `trackpadchanged`, and the same
snapshot again fires `trackpadchanged` alone. -/
theorem transition_fires_iff_pair_differs (w : World) (id : Int) (p s : ButtonState)
    (mid : List (Int × ButtonState))
    (hA : buttonsAttached w.component = true) (hid : id = 0 ∨ id = 1 ∨ id = 2)
    (hmid : ∀ x ∈ mid, x.1 ≠ id) :
    ((∃ e ∈ fired w.component (deliverButton w id s).component, isTransitionEvent e = true)
        ↔ (s.pressed, s.touched) ≠ w.recorded id)
    ∧ ((∃ e ∈ fired (deliverAll (deliverButton w id p) mid).component
              (deliverButton (deliverAll (deliverButton w id p) mid) id s).component,
          isTransitionEvent e = true)
        ↔ (s.pressed, s.touched) ≠ (p.pressed, p.touched))
    ∧ (∃ name : String, arrayGet mapping.buttons id = some name
        ∧ fired (deliverButton w id p).component
            (deliverButton (deliverButton w id p) id p).component
          = [⟨name ++ "changed", .state p⟩])
    ∧ fired leftWorld.component (deliverButton leftWorld 0 ⟨true, false, 1⟩).component
        = [⟨"trackpaddown", .none⟩, ⟨"trackpadchanged", .state ⟨true, false, 1⟩⟩]
    ∧ fired (deliverButton leftWorld 0 ⟨true, false, 1⟩).component
          (deliverButton (deliverButton leftWorld 0 ⟨true, false, 1⟩) 0
            ⟨true, false, 1⟩).component
        = [⟨"trackpadchanged", .state ⟨true, false, 1⟩⟩] := by
  obtain ⟨name, hname, hmem, hne⟩ := arrayGet_buttons_mapped id hid
  have hA1 : buttonsAttached (deliverButton w id p).component = true := by
    rw [buttonsAttached_deliverButton]; exact hA
  have hA2 : buttonsAttached (deliverAll (deliverButton w id p) mid).component = true := by
    rw [buttonsAttached_deliverAll]; exact hA1
  have hrec1 : (deliverButton w id p).recorded id = (p.pressed, p.touched) := by
    simp [deliverButton]
  have hrec2 : (deliverAll (deliverButton w id p) mid).recorded id = (p.pressed, p.touched) := by
    rw [recorded_deliverAll _ mid id hmid, hrec1]
  have hL : buttonsAttached leftWorld.component = true := by decide
  have hL1 : buttonsAttached (deliverButton leftWorld 0 ⟨true, false, 1⟩).component = true := by
    rw [buttonsAttached_deliverButton]; exact hL
  refine ⟨?_, ?_, ⟨name, hname, ?_⟩, ?_, ?_⟩
  · rw [fired_deliverButton w id s name hA hname hne]
    exact transition_in_fired_iff name hmem (w.recorded id) s
  · rw [fired_deliverButton _ id s name hA2 hname hne, ← hrec2]
    exact transition_in_fired_iff name hmem _ s
  · rw [fired_deliverButton _ id p name hA1 hname hne, hrec1]
    simp
  · rw [fired_deliverButton leftWorld 0 _ "trackpad" hL rfl (by decide)]
    simp [leftWorld, World.start]
  · rw [fired_deliverButton _ 0 _ "trackpad" hL1 rfl (by decide)]
    simp [deliverButton]

theorem transition_fires_iff_pair_differs_witness :
    buttonsAttached leftWorld.component = true
    ∧ ((0 : Int) = 0 ∨ (0 : Int) = 1 ∨ (0 : Int) = 2)
    ∧ (∀ x ∈ [((1 : Int), (⟨true, true, 1⟩ : ButtonState))], x.1 ≠ 0)
    ∧ ((∃ e ∈ fired
              (deliverAll (deliverButton leftWorld 0 ⟨true, false, 1⟩)
                [(1, ⟨true, true, 1⟩)]).component
              (deliverButton
                (deliverAll (deliverButton leftWorld 0 ⟨true, false, 1⟩)
                  [(1, ⟨true, true, 1⟩)]) 0 ⟨false, false, 0⟩).component,
          isTransitionEvent e = true)
        ↔ ((⟨false, false, 0⟩ : ButtonState).pressed, (⟨false, false, 0⟩ : ButtonState).touched)
            ≠ ((⟨true, false, 1⟩ : ButtonState).pressed,
               (⟨true, false, 1⟩ : ButtonState).touched)) :=
  ⟨by decide, by decide, by decide,
   (transition_fires_iff_pair_differs leftWorld 0 ⟨true, false, 1⟩ ⟨false, false, 0⟩
      [(1, ⟨true, true, 1⟩)] (by decide) (by decide) (by decide)).2.1⟩

end Daydream
